import Mathlib

/-!
# 8ball: a magic-8-ball chat bot (`8ball.go`)

A shallow embedding of the reply generation (`postReply`, `generateResponse`), of the dispatch
loop of `main` and of the start-up step that fixes the bot identity, followed by the properties
proved about them.

Representation choices.

* A Go `string` is a `List Char`.  Every string that reaches the embedded functions was produced
  by `json.Unmarshal` (which yields valid UTF-8 only) or is a literal of the program, so it is a
  sequence of Unicode scalar values.  On valid UTF-8 the byte-wise `strings.HasPrefix` and
  `strings.HasSuffix` agree with the code-point-wise ones used here.
* The process state touched by the embedded functions is `World`: the global `idCounter` and the
  frames handed to `con.WriteMessage`, in the order of the calls.
* `rand.Int()` is an input `r : Int` of `postReply`: the value the call returns if it is made.
* A run-time panic (index out of range) is the result `none`.
-/

namespace EightBall

/-- A Go string, as its sequence of code points. -/
abbrev GoString := List Char

/-! ## Library functions used by the program -/

/-- The Go function `strings.HasPrefix`: `len(s) >= len(prefix) && s[:len(prefix)] == prefix`. -/
def HasPrefix (s pre : GoString) : Bool :=
  decide (pre.length ≤ s.length) && (s.take pre.length == pre)

/-- The Go function `strings.HasSuffix`:
`len(s) >= len(suffix) && s[len(s)-len(suffix):] == suffix`. -/
def HasSuffix (s suf : GoString) : Bool :=
  decide (suf.length ≤ s.length) && (s.drop (s.length - suf.length) == suf)

/-- The Go function `strings.TrimPrefix`: `s[len(prefix):]` when `s` has the prefix, else `s`. -/
def TrimPrefix (s pre : GoString) : GoString :=
  if HasPrefix s pre then s.drop pre.length else s

/-- The Go predicate `unicode.IsSpace`: the code points with the Unicode White_Space property. -/
def isSpace (c : Char) : Bool :=
  let n := c.toNat
  (0x09 ≤ n && n ≤ 0x0D) || n == 0x20 || n == 0x85 || n == 0xA0 || n == 0x1680 ||
  (0x2000 ≤ n && n ≤ 0x200A) || n == 0x2028 || n == 0x2029 || n == 0x202F || n == 0x205F ||
  n == 0x3000

/-- The Go function `strings.TrimSpace`: all leading and trailing white space removed. -/
def TrimSpace (s : GoString) : GoString :=
  ((s.dropWhile isSpace).reverse.dropWhile isSpace).reverse

/-- The Go function `unicode.ToLower` on one code point.  On ASCII it maps `A`..`Z` to `a`..`z`
and fixes everything else; beyond ASCII it is the case table of the Go runtime, which is the
argument `tbl`. -/
def toLowerRune (tbl : Char → Char) (c : Char) : Char :=
  if c.toNat < 128 then
    (if 65 ≤ c.toNat ∧ c.toNat ≤ 90 then Char.ofNat (c.toNat + 32) else c)
  else tbl c

/-- The Go function `strings.ToLower`: `unicode.ToLower` applied to every code point. -/
def ToLower (tbl : Char → Char) (s : GoString) : GoString :=
  s.map (toLowerRune tbl)

/-- The alternatives of the pattern `^(who|what|when|where|why|how|if).*`. -/
def interrogatives : List GoString :=
  ["who".toList, "what".toList, "when".toList, "where".toList, "why".toList, "how".toList,
   "if".toList]

/-- The call `regexp.MatchString("^(who|what|when|where|why|how|if).*", s)`.  The pattern is a
valid constant, so the error result is never produced; `^` anchors the match at the start of the
text and `.*` also matches the empty string, so the text matches exactly when one of the
alternatives is a prefix of it. -/
def regexpMatchString (s : GoString) : Except GoString Bool :=
  .ok (interrogatives.any (fun w => HasPrefix s w))

/-- Go's `%` on `int`: the remainder of the division truncated toward zero. -/
def goMod (a b : Int) : Int := Int.tmod a b

/-- Indexing a Go slice: `none` stands for the index-out-of-range panic. -/
def goIndex {α : Type} (xs : List α) (i : Int) : Option α :=
  if 0 ≤ i ∧ i < (xs.length : Int) then xs.get? i.toNat else none

/-! ## Data model -/

/-- The struct `responseSelf`. -/
structure responseSelf where
  Id : GoString
  deriving DecidableEq, Repr

/-- The struct `responseRtmStart`, the slack rtm.start packet. -/
structure responseRtmStart where
  Ok : Bool
  Error : GoString
  Url : GoString
  Self : responseSelf
  deriving DecidableEq, Repr

/-- The struct `incomingMessage` (the field `Type` is `Type_` here, `Type` being reserved). -/
structure incomingMessage where
  Type_ : GoString
  SubType : GoString
  Channel : GoString
  User : GoString
  Text : GoString
  TimeStamp : GoString
  deriving DecidableEq, Repr

/-- The struct `outgoingMessage` (the field `Type` is `Type_` here). -/
structure outgoingMessage where
  Id : Nat
  Type_ : GoString
  Channel : GoString
  Text : GoString
  deriving DecidableEq, Repr

/-- The width of `idCounter`, a `uint64`. -/
def uint64Size : Nat := 2 ^ 64

/-- The process state: the global `idCounter` and the messages handed to `con.WriteMessage`
(one entry per call, oldest first).  `json.Marshal` cannot fail on an `outgoingMessage`
(a `uint64` and three strings), so the frame written is identified with the message. -/
structure World where
  idCounter : Nat
  written : List outgoingMessage
  deriving DecidableEq, Repr

/-- The table `magicResponse` of canned responses. -/
def magicResponse : List GoString :=
  ["Signs point to no.".toList,
   "Yes.".toList,
   "Reply hazy, try again.".toList,
   "Without a doubt.".toList,
   "My sources say no.".toList,
   "As I see it, yes.".toList,
   "You may rely on it.".toList,
   "Concentrate and ask again.".toList,
   "Outlook not so good.".toList,
   "It is decidedly so.".toList,
   "Better not tell you now.".toList,
   "Very doubtful.".toList,
   "Yes - definitely.".toList,
   "It is certain.".toList,
   "Cannot predict now.".toList,
   "Most likely.".toList,
   "Ask again later.".toList,
   "My reply is no.".toList,
   "Outlook good.".toList,
   "Don't count on it.".toList]

/-! ## Reply generation -/

/-- The function `generateResponse`: `atomic.AddUint64(&idCounter, 1)` (the sum wraps at `2^64`
and the new value is the id), then one `con.WriteMessage` of the message built from it. -/
def generateResponse (w : World) (channel text : GoString) : World :=
  let id := (w.idCounter + 1) % uint64Size
  let msg : outgoingMessage :=
    { Id := id, Channel := channel, Type_ := "message".toList, Text := text }
  { idCounter := id, written := w.written ++ [msg] }

/-- The function `postReply`.  `tbl` is the non-ASCII part of `unicode.ToLower` and `r` the value
of `rand.Int()`. -/
def postReply (tbl : Char → Char) (r : Int) (w : World) (query channel : GoString) :
    Option World :=
  if !HasSuffix query "?".toList then
    some (generateResponse w channel "Where's the question?".toList)
  else
    match regexpMatchString (ToLower tbl query) with
    | .error _ => some w
    | .ok true =>
      some (generateResponse w channel "I'm not a tarot deck. Yes or no questions please.".toList)
    | .ok false =>
      match goIndex magicResponse (goMod r (magicResponse.length : Int)) with
      | none => none
      | some answer => some (generateResponse w channel answer)

/-! ## Dispatch loop -/

/-- The arguments of one `go postReply(con, m, msg.Channel)`. -/
structure ReplyTask where
  query : GoString
  channel : GoString
  deriving DecidableEq, Repr

/-- What one pass through the head of the loop obtains: either `con.ReadMessage()` returned an
error, or it returned a payload `p`, and then `json.Unmarshal(p, &msg)` left the fresh `msg` in
the state `msg` and returned a non-nil error exactly when `decodeErr` is `true`. -/
inductive ReadResult where
  | readError (e : GoString)
  | frame (msg : incomingMessage) (decodeErr : Bool)
  deriving DecidableEq, Repr

/-- The two states of the dispatch loop. -/
inductive LoopState where
  | LISTENING
  | TERMINATED
  deriving DecidableEq, Repr

/-- The outcome of the loop on a sequence of read results: its state, the reply tasks launched
(in launch order) and the read results it did not consume. -/
structure LoopResult where
  state : LoopState
  launched : List ReplyTask
  unread : List ReadResult
  deriving DecidableEq, Repr

/-- The body of the loop after the decode (lines 135-144): the reply task launched for `msg`, if
any.  The error of `json.Unmarshal` is not consulted. -/
def dispatch (userId : GoString) (msg : incomingMessage) : Option ReplyTask :=
  if msg.Type_ == "message".toList then
    let mention := "<@".toList ++ userId ++ ">".toList
    if HasPrefix msg.Text mention then
      let m := TrimPrefix msg.Text mention
      let m := TrimSpace m
      some { query := m, channel := msg.Channel }
    else none
  else none

/-- The loop `for { ... }` of `main` run on the read results `con.ReadMessage()` delivers, with
`launched` the tasks launched so far.  A read error breaks the loop; when the results given are
used up the loop is still listening (blocked in `ReadMessage`). -/
def listen (userId : GoString) (launched : List ReplyTask) : List ReadResult → LoopResult
  | [] => { state := .LISTENING, launched := launched, unread := [] }
  | .readError _ :: rest => { state := .TERMINATED, launched := launched, unread := rest }
  | .frame msg _ :: rest => listen userId (launched ++ (dispatch userId msg).toList) rest

/-! ## Start-up -/

/-- The handling of the handshake body in `main` (lines 97-106).  `slackHeader` and `err` are what
`json.Unmarshal(handshakeBody, &slackHeader)` produced.  The result is `.error` with the message
of `log.Fatalf` when start-up aborts, and otherwise the value assigned to `userId`. -/
def startup (slackHeader : responseRtmStart) (err : Option GoString) : Except GoString GoString :=
  match err with
  | some e => .error ("Unable to parse handshake: ".toList ++ e)
  | none =>
    if !slackHeader.Ok then .error ("Bad header: ".toList ++ slackHeader.Error)
    else .ok slackHeader.Self.Id

/-! ## Response selection -/

/-- The index expression `rand.Int() % len(magicResponse)` for a non-negative `r`. -/
def selectIndex (r : Nat) : Nat := r % magicResponse.length

/-- The number of values `r` in `[0, n)` that `selectIndex` sends to the index `i`. -/
def preimageCount (n i : Nat) : Nat := Nat.count (fun r => selectIndex r = i) n

/-- A sequence of `generateResponse` calls made from `w`, each given by its channel and text, in
the order in which their `atomic.AddUint64` take effect. -/
def issue (w : World) : List (GoString × GoString) → World
  | [] => w
  | (channel, text) :: rest => issue (generateResponse w channel text) rest

/-- The initial process state: `idCounter` is zero and nothing has been written. -/
def World.init : World := { idCounter := 0, written := [] }

/-! ## Facts about the library functions -/

theorem HasPrefix_iff (s pre : GoString) : HasPrefix s pre = true ↔ pre <+: s := by
  unfold HasPrefix
  rw [List.prefix_iff_eq_take]
  constructor
  · intro h
    simp only [Bool.and_eq_true, decide_eq_true_eq, beq_iff_eq] at h
    exact h.2.symm
  · intro h
    have hl : pre.length ≤ s.length := by
      have := congrArg List.length h
      rw [List.length_take] at this
      omega
    simp only [Bool.and_eq_true, decide_eq_true_eq, beq_iff_eq]
    exact ⟨hl, h.symm⟩

theorem HasSuffix_iff (s suf : GoString) : HasSuffix s suf = true ↔ suf <:+ s := by
  unfold HasSuffix
  rw [List.suffix_iff_eq_drop]
  constructor
  · intro h
    simp only [Bool.and_eq_true, decide_eq_true_eq, beq_iff_eq] at h
    exact h.2.symm
  · intro h
    have hl : suf.length ≤ s.length := by
      have := congrArg List.length h
      rw [List.length_drop] at this
      omega
    simp only [Bool.and_eq_true, decide_eq_true_eq, beq_iff_eq]
    exact ⟨hl, h.symm⟩

theorem regexpMatchString_eq (s : GoString) :
    regexpMatchString s = .ok (decide (∃ w ∈ interrogatives, w <+: s)) := by
  unfold regexpMatchString
  congr 1
  rw [Bool.eq_iff_iff]
  simp only [List.any_eq_true, decide_eq_true_eq, HasPrefix_iff]

/-- The state after one `generateResponse`, spelled out. -/
theorem generateResponse_eq (w : World) (channel text : GoString) :
    generateResponse w channel text =
      { idCounter := (w.idCounter + 1) % 2 ^ 64,
        written := w.written ++
          [{ Id := (w.idCounter + 1) % 2 ^ 64, Type_ := "message".toList, Channel := channel,
             Text := text }] } := rfl

theorem generateResponse_length (w : World) (channel text : GoString) :
    (generateResponse w channel text).written.length = w.written.length + 1 := by
  rw [generateResponse_eq, List.length_append]
  rfl

theorem goMod_length_bounds (r : Int) (hr : 0 ≤ r) :
    0 ≤ goMod r (magicResponse.length : Int) ∧
      goMod r (magicResponse.length : Int) < (magicResponse.length : Int) := by
  unfold goMod
  exact ⟨Int.tmod_nonneg _ hr, Int.tmod_lt_of_pos _ (by decide)⟩

theorem goIndex_magicResponse (r : Int) (hr : 0 ≤ r) :
    ∃ i : Nat, i < magicResponse.length ∧ goMod r (magicResponse.length : Int) = (i : Int) ∧
      ∃ answer, magicResponse.get? i = some answer ∧ answer ∈ magicResponse ∧
        goIndex magicResponse (goMod r (magicResponse.length : Int)) = some answer := by
  obtain ⟨h0, h1⟩ := goMod_length_bounds r hr
  obtain ⟨i, hi⟩ := Int.eq_ofNat_of_zero_le h0
  have hlt : i < magicResponse.length := by
    rw [hi] at h1
    exact_mod_cast h1
  refine ⟨i, hlt, hi, magicResponse.get ⟨i, hlt⟩, List.get?_eq_get hlt, List.get_mem _ _ _, ?_⟩
  unfold goIndex
  rw [if_pos ⟨h0, h1⟩, hi, Int.toNat_ofNat]
  exact List.get?_eq_get hlt

/-- The first branch of `postReply`: no "?" at the end. -/
theorem postReply_of_no_suffix (tbl : Char → Char) (r : Int) (w : World)
    (query channel : GoString) (h : ¬ "?".toList <:+ query) :
    postReply tbl r w query channel =
      some (generateResponse w channel "Where's the question?".toList) := by
  have hs : HasSuffix query "?".toList = false := by
    rw [← Bool.not_eq_true, HasSuffix_iff]
    exact h
  unfold postReply
  rw [hs]
  rfl

/-- The second branch of `postReply`: the pattern matches the lower-cased query. -/
theorem postReply_of_match (tbl : Char → Char) (r : Int) (w : World)
    (query channel : GoString) (hq : "?".toList <:+ query)
    (hi : ∃ p ∈ interrogatives, p <+: ToLower tbl query) :
    postReply tbl r w query channel =
      some (generateResponse w channel
        "I'm not a tarot deck. Yes or no questions please.".toList) := by
  have hs : HasSuffix query "?".toList = true := (HasSuffix_iff _ _).2 hq
  unfold postReply
  rw [hs, regexpMatchString_eq, decide_eq_true hi]
  rfl

/-- The third branch of `postReply`: the table lookup. -/
theorem postReply_of_no_match (tbl : Char → Char) (r : Int) (w : World)
    (query channel answer : GoString) (hq : "?".toList <:+ query)
    (hn : ¬ ∃ p ∈ interrogatives, p <+: ToLower tbl query)
    (hidx : goIndex magicResponse (goMod r (magicResponse.length : Int)) = some answer) :
    postReply tbl r w query channel = some (generateResponse w channel answer) := by
  have hs : HasSuffix query "?".toList = true := (HasSuffix_iff _ _).2 hq
  unfold postReply
  rw [hs, regexpMatchString_eq, decide_eq_false hn]
  simp only [Bool.not_true, Bool.false_eq_true, if_false]
  rw [hidx]

/-! ## Reply generation: the three branches -/

/-- C1: a query that does not end with "?" (whatever else it contains, the empty query included)
makes `postReply` send the fixed text "Where's the question?" on the given channel, and nothing
else: exactly this one message is appended to what was written. -/
theorem postReply_missing_question_mark (tbl : Char → Char) (r : Int) (w : World)
    (query channel : GoString) (h : ¬ "?".toList <:+ query) :
    postReply tbl r w query channel =
      some { idCounter := (w.idCounter + 1) % 2 ^ 64,
             written := w.written ++
               [{ Id := (w.idCounter + 1) % 2 ^ 64, Type_ := "message".toList,
                  Channel := channel, Text := "Where's the question?".toList }] } :=
  postReply_of_no_suffix tbl r w query channel h

theorem postReply_missing_question_mark_witness :
    (¬ "?".toList <:+ "who am I".toList) ∧
    postReply id 3 World.init "who am I".toList "C1".toList =
      some { idCounter := (World.init.idCounter + 1) % 2 ^ 64,
             written := World.init.written ++
               [{ Id := (World.init.idCounter + 1) % 2 ^ 64, Type_ := "message".toList,
                  Channel := "C1".toList, Text := "Where's the question?".toList }] } :=
  ⟨by decide, postReply_missing_question_mark id 3 World.init "who am I".toList "C1".toList
    (by decide)⟩

/-- C2: a query that ends with "?" and whose lower-cased form has one of who, what, when,
where, why, how, if as a prefix (no word boundary asked for) makes `postReply` send exactly the
fixed text "I'm not a tarot deck. Yes or no questions please.", which is not an entry of
`magicResponse`. -/
theorem postReply_interrogative (tbl : Char → Char) (r : Int) (w : World)
    (query channel : GoString) (hq : "?".toList <:+ query)
    (hi : ∃ p ∈ interrogatives, p <+: ToLower tbl query) :
    postReply tbl r w query channel =
      some { idCounter := (w.idCounter + 1) % 2 ^ 64,
             written := w.written ++
               [{ Id := (w.idCounter + 1) % 2 ^ 64, Type_ := "message".toList,
                  Channel := channel,
                  Text := "I'm not a tarot deck. Yes or no questions please.".toList }] } ∧
    "I'm not a tarot deck. Yes or no questions please.".toList ∉ magicResponse :=
  ⟨postReply_of_match tbl r w query channel hq hi, by decide⟩

theorem postReply_interrogative_witness :
    ("?".toList <:+ "Iffy weather?".toList ∧
      ∃ p ∈ interrogatives, p <+: ToLower id "Iffy weather?".toList) ∧
    (postReply id 3 World.init "Iffy weather?".toList "C1".toList =
      some { idCounter := (World.init.idCounter + 1) % 2 ^ 64,
             written := World.init.written ++
               [{ Id := (World.init.idCounter + 1) % 2 ^ 64, Type_ := "message".toList,
                  Channel := "C1".toList,
                  Text := "I'm not a tarot deck. Yes or no questions please.".toList }] } ∧
    "I'm not a tarot deck. Yes or no questions please.".toList ∉ magicResponse) :=
  ⟨⟨by decide, "if".toList, by decide, by decide⟩,
   postReply_interrogative id 3 World.init "Iffy weather?".toList "C1".toList (by decide)
    ⟨"if".toList, by decide, by decide⟩⟩

/-- C3: for a query that ends with "?" and whose lower-cased form has none of who, what, when,
where, why, how, if as a prefix, and for every non-negative value `r` of `rand.Int()`: the table
has 20 entries, the index `r % len(magicResponse)` is a natural number below 20, the lookup
succeeds, and the text `postReply` sends is that entry of `magicResponse`. -/
theorem postReply_table_entry (tbl : Char → Char) (r : Int) (w : World)
    (query channel : GoString) (hq : "?".toList <:+ query)
    (hn : ¬ ∃ p ∈ interrogatives, p <+: ToLower tbl query) (hr : 0 ≤ r) :
    magicResponse.length = 20 ∧
    ∃ i : Nat, i < 20 ∧ goMod r (magicResponse.length : Int) = (i : Int) ∧
      ∃ answer, magicResponse.get? i = some answer ∧ answer ∈ magicResponse ∧
        goIndex magicResponse (goMod r (magicResponse.length : Int)) = some answer ∧
        postReply tbl r w query channel =
          some { idCounter := (w.idCounter + 1) % 2 ^ 64,
                 written := w.written ++
                   [{ Id := (w.idCounter + 1) % 2 ^ 64, Type_ := "message".toList,
                      Channel := channel, Text := answer }] } := by
  obtain ⟨i, hi, hmod, answer, hget, hmem, hidx⟩ := goIndex_magicResponse r hr
  exact ⟨rfl, i, hi, hmod, answer, hget, hmem, hidx,
    postReply_of_no_match tbl r w query channel answer hq hn hidx⟩

theorem postReply_table_entry_witness :
    ("?".toList <:+ "Will it rain today?".toList ∧
      (¬ ∃ p ∈ interrogatives, p <+: ToLower id "Will it rain today?".toList) ∧
      (0 : Int) ≤ 9223372036854775807) ∧
    (magicResponse.length = 20 ∧
    ∃ i : Nat, i < 20 ∧ goMod 9223372036854775807 (magicResponse.length : Int) = (i : Int) ∧
      ∃ answer, magicResponse.get? i = some answer ∧ answer ∈ magicResponse ∧
        goIndex magicResponse (goMod 9223372036854775807 (magicResponse.length : Int))
          = some answer ∧
        postReply id 9223372036854775807 World.init "Will it rain today?".toList "C1".toList =
          some { idCounter := (World.init.idCounter + 1) % 2 ^ 64,
                 written := World.init.written ++
                   [{ Id := (World.init.idCounter + 1) % 2 ^ 64, Type_ := "message".toList,
                      Channel := "C1".toList, Text := answer }] }) :=
  ⟨⟨by decide, by decide, by decide⟩,
   postReply_table_entry id 9223372036854775807 World.init "Will it rain today?".toList
    "C1".toList (by decide) (by decide) (by decide)⟩

/-- C4: for every query and channel (and every non-negative value of `rand.Int()`), one
`postReply` makes exactly one `con.WriteMessage`: what was written grows by exactly one message,
whose type is "message" and whose channel is the channel argument.  In particular the query
"why is the sky blue?" on channel "C1" writes exactly one message, on channel "C1", with the
text "I'm not a tarot deck. Yes or no questions please.". -/
theorem postReply_exactly_one_write (tbl : Char → Char) (r : Int) (w : World)
    (query channel : GoString) (hr : 0 ≤ r) :
    (∃ w1 msg, postReply tbl r w query channel = some w1 ∧
      w1.written = w.written ++ [msg] ∧ w1.written.length = w.written.length + 1 ∧
      msg.Type_ = "message".toList ∧ msg.Channel = channel) ∧
    (∃ w1 n, postReply tbl r w "why is the sky blue?".toList "C1".toList = some w1 ∧
      w1.written = w.written ++
        [{ Id := n, Type_ := "message".toList, Channel := "C1".toList,
           Text := "I'm not a tarot deck. Yes or no questions please.".toList }]) := by
  constructor
  · by_cases hq : "?".toList <:+ query
    · by_cases hi : ∃ p ∈ interrogatives, p <+: ToLower tbl query
      · exact ⟨_, _, postReply_of_match tbl r w query channel hq hi, rfl,
          generateResponse_length _ _ _, rfl, rfl⟩
      · obtain ⟨_, _, _, answer, _, _, hidx⟩ := goIndex_magicResponse r hr
        exact ⟨_, _, postReply_of_no_match tbl r w query channel answer hq hi hidx, rfl,
          generateResponse_length _ _ _, rfl, rfl⟩
    · exact ⟨_, _, postReply_of_no_suffix tbl r w query channel hq, rfl,
        generateResponse_length _ _ _, rfl, rfl⟩
  · exact ⟨_, _, rfl, rfl⟩

theorem postReply_exactly_one_write_witness :
    (0 : Int) ≤ 5 ∧
    ((∃ w1 msg, postReply id 5 World.init "Is it Friday?".toList "C7".toList = some w1 ∧
      w1.written = World.init.written ++ [msg] ∧
      w1.written.length = World.init.written.length + 1 ∧
      msg.Type_ = "message".toList ∧ msg.Channel = "C7".toList) ∧
    (∃ w1 n, postReply id 5 World.init "why is the sky blue?".toList "C1".toList = some w1 ∧
      w1.written = World.init.written ++
        [{ Id := n, Type_ := "message".toList, Channel := "C1".toList,
           Text := "I'm not a tarot deck. Yes or no questions please.".toList }])) :=
  ⟨by decide, postReply_exactly_one_write id 5 World.init "Is it Friday?".toList "C7".toList
    (by decide)⟩

/-! ## Dispatch decision -/

/-- What `TrimSpace` removes and what it leaves: the input is white space, then the result, then
white space, and the result neither starts nor ends with white space. -/
theorem TrimSpace_spec (s : GoString) :
    ∃ lead trail, s = lead ++ TrimSpace s ++ trail ∧
      (∀ c ∈ lead, isSpace c = true) ∧ (∀ c ∈ trail, isSpace c = true) ∧
      (∀ c, (TrimSpace s).head? = some c → isSpace c = false) ∧
      (∀ c, (TrimSpace s).getLast? = some c → isSpace c = false) := by
  have hb : (s.dropWhile isSpace) =
      TrimSpace s ++ ((s.dropWhile isSpace).reverse.takeWhile isSpace).reverse := by
    unfold TrimSpace
    rw [← List.reverse_append, List.takeWhile_append_dropWhile, List.reverse_reverse]
  refine ⟨s.takeWhile isSpace, ((s.dropWhile isSpace).reverse.takeWhile isSpace).reverse,
    ?_, ?_, ?_, ?_, ?_⟩
  · rw [List.append_assoc, ← hb, List.takeWhile_append_dropWhile]
  · intro c hc
    exact List.mem_takeWhile_imp hc
  · intro c hc
    rw [List.mem_reverse] at hc
    exact List.mem_takeWhile_imp hc
  · intro c hc
    have hne : TrimSpace s ≠ [] := by
      intro h0
      rw [h0] at hc
      simp at hc
    have hh : (s.dropWhile isSpace).head? = some c := by
      rw [hb, List.head?_append_of_ne_nil _ hne]
      exact hc
    have := List.head?_dropWhile_not isSpace s
    rw [hh] at this
    simpa using this
  · intro c hc
    have hh : ((s.dropWhile isSpace).reverse.dropWhile isSpace).head? = some c := by
      unfold TrimSpace at hc
      rw [List.getLast?_reverse] at hc
      exact hc
    have := List.head?_dropWhile_not isSpace (s.dropWhile isSpace).reverse
    rw [hh] at this
    simpa using this

/-- C5: with `mention = "<@" + userId + ">"`, the loop launches a reply task for a decoded
message `m` if and only if `m.Type` is "message" and `mention` is a prefix of `m.Text`.  The task
then carries the channel `m.Channel` and, as query, the text after that prefix with the white
space at both ends removed.  For the identity "U123" the text "<@U123> Will it rain today?" gives
the query "Will it rain today?", and the text "hello <@U123> test" launches nothing. -/
theorem dispatch_spec (userId : GoString) (m : incomingMessage) :
    ((dispatch userId m).isSome = true ↔
      (m.Type_ = "message".toList ∧ ("<@".toList ++ userId ++ ">".toList) <+: m.Text)) ∧
    (∀ t, dispatch userId m = some t →
      t.channel = m.Channel ∧
      ∃ rest lead trail, m.Text = ("<@".toList ++ userId ++ ">".toList) ++ rest ∧
        rest = lead ++ t.query ++ trail ∧
        (∀ c ∈ lead, isSpace c = true) ∧ (∀ c ∈ trail, isSpace c = true) ∧
        (∀ c, t.query.head? = some c → isSpace c = false) ∧
        (∀ c, t.query.getLast? = some c → isSpace c = false)) ∧
    dispatch "U123".toList
        { m with Type_ := "message".toList, Text := "<@U123> Will it rain today?".toList } =
      some { query := "Will it rain today?".toList, channel := m.Channel } ∧
    dispatch "U123".toList
        { m with Type_ := "message".toList, Text := "hello <@U123> test".toList } = none := by
  refine ⟨?_, ?_, rfl, rfl⟩
  · unfold dispatch
    generalize "message".toList = lit
    generalize "<@".toList ++ userId ++ ">".toList = mention
    by_cases ht : m.Type_ = lit
    · by_cases hp : HasPrefix m.Text mention = true
      · simp [ht, hp, (HasPrefix_iff _ _).1 hp]
      · have hp2 : ¬ mention <+: m.Text := fun h => hp ((HasPrefix_iff _ _).2 h)
        simp [ht, hp, hp2]
    · simp [ht]
  · intro t ht
    unfold dispatch at ht
    generalize "message".toList = lit at ht
    generalize "<@".toList ++ userId ++ ">".toList = mention at ht ⊢
    by_cases hty : m.Type_ = lit
    · by_cases hp : HasPrefix m.Text mention = true
      · simp only [hty, beq_self_eq_true, if_true, hp, Option.some.injEq] at ht
        subst ht
        refine ⟨rfl, ?_⟩
        obtain ⟨rest, hrest⟩ := (HasPrefix_iff _ _).1 hp
        have htp : TrimPrefix m.Text mention = rest := by
          unfold TrimPrefix
          rw [if_pos hp, ← hrest, List.drop_left]
        obtain ⟨lead, trail, h1, h2, h3, h4, h5⟩ := TrimSpace_spec rest
        refine ⟨rest, lead, trail, hrest.symm, ?_, h2, h3, ?_, ?_⟩
        · rw [htp]
          exact h1
        · rw [htp]
          exact h4
        · rw [htp]
          exact h5
      · simp [hty, hp] at ht
    · simp [hty] at ht

theorem dispatch_spec_witness :
    dispatch "U123".toList
        { Type_ := "message".toList, SubType := [], Channel := "C9".toList,
          User := "U7".toList, Text := "<@U123>  Is it so? ".toList, TimeStamp := [] } =
      some { query := "Is it so?".toList, channel := "C9".toList } ∧
    ({ query := "Is it so?".toList, channel := "C9".toList } : ReplyTask).channel =
      "C9".toList :=
  ⟨rfl,
   ((dispatch_spec "U123".toList
        { Type_ := "message".toList, SubType := [], Channel := "C9".toList,
          User := "U7".toList, Text := "<@U123>  Is it so? ".toList, TimeStamp := [] }).2.1
      { query := "Is it so?".toList, channel := "C9".toList } rfl).1⟩

/-! ## Outgoing ids -/

theorem issue_from (cs : List (GoString × GoString)) (w : World)
    (h : w.idCounter + cs.length < 2 ^ 64) :
    (issue w cs).idCounter = w.idCounter + cs.length ∧
    (issue w cs).written.map (fun m => m.Id) =
      w.written.map (fun m => m.Id) ++ List.range' (w.idCounter + 1) cs.length ∧
    (issue w cs).written.map (fun m => (m.Channel, m.Text)) =
      w.written.map (fun m => (m.Channel, m.Text)) ++ cs := by
  induction cs generalizing w with
  | nil => simp [issue]
  | cons c rest ih =>
    obtain ⟨channel, text⟩ := c
    have hlen : w.idCounter + 1 + rest.length < 2 ^ 64 := by
      simp only [List.length_cons] at h
      omega
    have hid : (w.idCounter + 1) % 2 ^ 64 = w.idCounter + 1 := Nat.mod_eq_of_lt (by omega)
    have hw : generateResponse w channel text =
        { idCounter := w.idCounter + 1,
          written := w.written ++
            [{ Id := w.idCounter + 1, Type_ := "message".toList, Channel := channel,
               Text := text }] } := by
      rw [generateResponse_eq, hid]
    obtain ⟨h1, h2, h3⟩ := ih (generateResponse w channel text) (by rw [hw]; exact hlen)
    rw [hw] at h1 h2 h3
    refine ⟨?_, ?_, ?_⟩
    · show (issue (generateResponse w channel text) rest).idCounter = _
      rw [hw, h1]
      simp only [List.length_cons]
      omega
    · show (issue (generateResponse w channel text) rest).written.map _ = _
      rw [hw, h2]
      simp only [List.map_append, List.map_cons, List.map_nil, List.length_cons,
        List.range'_succ, List.append_assoc, List.singleton_append]
    · show (issue (generateResponse w channel text) rest).written.map _ = _
      rw [hw, h3]
      simp only [List.map_append, List.map_cons, List.map_nil, List.append_assoc,
        List.singleton_append]

/-- C6: starting from `idCounter = 0`, a run of fewer than `2^64` calls of `generateResponse`
(taken in the order in which their atomic increments take effect) increments the counter once per
call, writes one message per call, and stamps the k-th call (k = 1, 2, ...) with the id k; so
the ids issued are strictly increasing in issuance order and pairwise distinct. -/
theorem issue_ids (cs : List (GoString × GoString)) (h : cs.length < 2 ^ 64) :
    (issue World.init cs).idCounter = cs.length ∧
    (issue World.init cs).written.map (fun m => (m.Channel, m.Text)) = cs ∧
    (issue World.init cs).written.map (fun m => m.Id) = List.range' 1 cs.length ∧
    (∀ k, k < cs.length →
      ((issue World.init cs).written.map (fun m => m.Id)).get? k = some (k + 1)) ∧
    ((issue World.init cs).written.map (fun m => m.Id)).Pairwise (fun a b => a < b) ∧
    ((issue World.init cs).written.map (fun m => m.Id)).Nodup := by
  have h0 : World.init.idCounter + cs.length < 2 ^ 64 := by
    show 0 + cs.length < 2 ^ 64
    omega
  obtain ⟨h1, h2, h3⟩ := issue_from cs World.init h0
  have hids : (issue World.init cs).written.map (fun m => m.Id) = List.range' 1 cs.length := by
    rw [h2]
    show [] ++ List.range' (0 + 1) cs.length = _
    simp
  refine ⟨?_, ?_, hids, ?_, ?_, ?_⟩
  · rw [h1]
    show 0 + cs.length = _
    omega
  · rw [h3]
    rfl
  · intro k hk
    rw [hids, List.get?_eq_getElem?, List.getElem?_range' _ _ hk]
    congr 1
    omega
  · rw [hids]
    exact List.pairwise_lt_range' 1 cs.length
  · rw [hids]
    exact List.nodup_range' 1 cs.length

theorem issue_ids_witness :
    ([("C1".toList, "Yes.".toList), ("C2".toList, "Most likely.".toList),
        ("C1".toList, "Outlook good.".toList)].length < 2 ^ 64) ∧
    (issue World.init [("C1".toList, "Yes.".toList), ("C2".toList, "Most likely.".toList),
        ("C1".toList, "Outlook good.".toList)]).written.map (fun m => m.Id) = [1, 2, 3] :=
  ⟨by decide,
   (issue_ids [("C1".toList, "Yes.".toList), ("C2".toList, "Most likely.".toList),
        ("C1".toList, "Outlook good.".toList)] (by decide)).2.2.1⟩

/-! ## The dispatch loop -/

theorem listen_frames (userId : GoString) (pre : List (incomingMessage × Bool))
    (launched : List ReplyTask) (tail : List ReadResult) :
    listen userId launched (pre.map (fun f => ReadResult.frame f.1 f.2) ++ tail) =
      listen userId (launched ++ pre.filterMap (fun f => dispatch userId f.1)) tail := by
  induction pre generalizing launched with
  | nil => simp
  | cons f rest ih =>
    show listen userId (launched ++ (dispatch userId f.1).toList)
      (rest.map (fun f => ReadResult.frame f.1 f.2) ++ tail) = _
    rw [ih]
    congr 1
    cases hd : dispatch userId f.1 <;> simp [List.filterMap_cons, hd]

/-- C9: for every sequence of read results, the loop ends at the first read error.  When the
frames `pre` are followed by an error and then by anything `post`, the loop ends TERMINATED, none
of `post` is consumed, and the replies launched are those of the frames of `pre`, in arrival
order; while no error has arrived the loop is LISTENING and has consumed every frame. -/
theorem listen_spec (userId : GoString) (pre : List (incomingMessage × Bool)) (e : GoString)
    (post : List ReadResult) :
    listen userId [] (pre.map (fun f => ReadResult.frame f.1 f.2) ++
        ReadResult.readError e :: post) =
      { state := LoopState.TERMINATED,
        launched := pre.filterMap (fun f => dispatch userId f.1),
        unread := post } ∧
    listen userId [] (pre.map (fun f => ReadResult.frame f.1 f.2)) =
      { state := LoopState.LISTENING,
        launched := pre.filterMap (fun f => dispatch userId f.1),
        unread := [] } := by
  constructor
  · rw [listen_frames]
    rfl
  · have := listen_frames userId pre [] []
    rw [List.append_nil] at this
    rw [this]
    rfl

/-- C7 (what the code does): a frame whose decoding returned an error but had filled in the type
"message" and a text that starts with the mention is not dropped: the loop launches a reply task
for it.  Here the payload is
`{"type":"message","channel":"C1","text":"<@U1> Will it rain?","ts":5}`, on which
`json.Unmarshal` reports the number given for `ts` after filling in the other fields. -/
theorem listen_decode_error_dispatched :
    listen "U1".toList []
        [ReadResult.frame
          { Type_ := "message".toList, SubType := [], Channel := "C1".toList, User := [],
            Text := "<@U1> Will it rain?".toList, TimeStamp := [] } true] =
      { state := LoopState.LISTENING,
        launched := [{ query := "Will it rain?".toList, channel := "C1".toList }],
        unread := [] } := by
  rfl

/-! ## Response selection -/

theorem preimageCount_eq (n i : Nat) (hi : i < 20) :
    preimageCount n i = n / 20 + if i < n % 20 then 1 else 0 := by
  have hc := Nat.count_modEq_card n (show 0 < 20 by decide) i
  rw [Nat.mod_eq_of_lt hi] at hc
  rw [← hc]
  unfold preimageCount
  rw [Nat.count_eq_card_filter_range, Nat.count_eq_card_filter_range]
  congr 1
  apply Finset.filter_congr
  intro x _
  show x % magicResponse.length = i ↔ x % 20 = i % 20
  rw [Nat.mod_eq_of_lt hi]
  rfl

/-- C8 as stated fails: among the values `[0, 2^63)` of `rand.Int()` the index 0 has one more
preimage under `r % len(magicResponse)` than the index 8. -/
theorem preimageCount_not_uniform :
    ¬ (∀ i j, i < 20 → j < 20 → preimageCount (2 ^ 63) i = preimageCount (2 ^ 63) j) := by
  intro h
  have h08 := h 0 8 (by decide) (by decide)
  rw [preimageCount_eq _ _ (by decide), preimageCount_eq _ _ (by decide)] at h08
  revert h08
  decide

/-- C8 (amended): among the values `[0, 2^63)` of `rand.Int()`, each index below 8 has
461168601842738791 preimages under `r % len(magicResponse)` and each index from 8 to 19 has
461168601842738790: the counts of two indices differ by at most one. -/
theorem preimageCount_near_uniform (i : Nat) (hi : i < 20) :
    selectIndex (2 ^ 63) = 8 ∧
    preimageCount (2 ^ 63) i = 461168601842738790 + (if i < 8 then 1 else 0) ∧
    ∀ j, j < 20 → preimageCount (2 ^ 63) i ≤ preimageCount (2 ^ 63) j + 1 := by
  have hf : ∀ k, k < 20 →
      preimageCount (2 ^ 63) k = 461168601842738790 + (if k < 8 then 1 else 0) := by
    intro k hk
    rw [preimageCount_eq _ _ hk]
    rfl
  refine ⟨by decide, hf i hi, ?_⟩
  intro j hj
  rw [hf i hi, hf j hj]
  split_ifs <;> omega

theorem preimageCount_near_uniform_witness :
    (19 < 20) ∧ preimageCount (2 ^ 63) 19 = 461168601842738790 + (if 19 < 8 then 1 else 0) :=
  ⟨by decide, (preimageCount_near_uniform 19 (by decide)).2.1⟩

/-! ## Start-up -/

/-- C10 as stated fails: the handshake body `{"ok":true,"url":"wss://x"}` parses with the
success flag set and no `self.id`, and start-up sets `userId` to the empty string. -/
theorem startup_empty_identity :
    ¬ (∀ (h : responseRtmStart) (userId : GoString),
        h.Ok = true → startup h none = .ok userId → userId ≠ []) := by
  intro hall
  exact hall { Ok := true, Error := [], Url := "wss://x".toList, Self := { Id := [] } } []
    rfl rfl rfl

/-- C10 (amended): for every handshake body that parses and whose success flag is true, start-up
does not abort and the `userId` it sets is the body's `self.id` string as decoded; it is non-empty
exactly when that string is. -/
theorem startup_identity (h : responseRtmStart) (hok : h.Ok = true) :
    startup h none = .ok h.Self.Id ∧
    ∀ userId, startup h none = .ok userId → (userId ≠ [] ↔ h.Self.Id ≠ []) := by
  have hs : startup h none = .ok h.Self.Id := by
    unfold startup
    simp [hok]
  refine ⟨hs, ?_⟩
  intro userId hu
  rw [hs] at hu
  cases hu
  exact Iff.rfl

theorem startup_identity_witness :
    ((⟨true, [], "wss://x".toList, ⟨"U1".toList⟩⟩ : responseRtmStart).Ok = true) ∧
    startup ⟨true, [], "wss://x".toList, ⟨"U1".toList⟩⟩ none = .ok "U1".toList :=
  ⟨rfl, (startup_identity ⟨true, [], "wss://x".toList, ⟨"U1".toList⟩⟩ rfl).1⟩

end EightBall
